import Mathlib

/-!
A shallow embedding of the activity-to-telemetry pipeline of the ziit-zed
language server (src/ziit-ls/src/heartbeat.rs and src/ziit-ls/src/main.rs).

Machine integers of the source that matter here are small second counts;
times are modelled as `Int` seconds (the source compares `chrono`
differences by whole seconds).  The HTTP transport and the configuration
store are external collaborators: their outcomes enter the model as
explicit parameters (`Config`, `NetResult`, `diskOk`).  File-system state
(the persisted queue snapshot) is carried explicitly in `ManagerState.disk`.

The source has a self-deadlock: `queue_offline_heartbeat` still holds the
`offline_heartbeats` tokio mutex (heartbeat.rs line 261) when
`save_offline_heartbeats` re-locks it (line 149), and
`sync_offline_heartbeats` holds the same guard (line 270) across its
post-drain save (line 297) and re-lock (line 302); tokio mutexes are not
reentrant, so those awaits never resolve.  The development therefore has
two layers.  The bare definitions give the written continuation of each
function with every lock acquisition granted; they are used only for
properties about effects that occur before any hang or on paths that
complete.  The definitions suffixed `_run` give the deadlock-faithful
semantics: `RunResult.hung` marks a call that never returns, carrying the
shared state visible at the hang point (held guards are never released,
so the whole manager wedges afterwards).
-/

/-- Mirrors `struct Heartbeat` (heartbeat.rs lines 20-29). -/
structure Heartbeat where
  timestamp : String
  project : Option String
  language : Option String
  file : Option String
  branch : Option String
  editor : String
  os : String
deriving DecidableEq, Repr

/-- Mirrors `Heartbeat::new` (heartbeat.rs lines 32-47): the timestamp and
the operating-system name come from the environment and are passed in. -/
def Heartbeat.new (nowRfc3339 osName : String)
    (project language file branch : Option String) : Heartbeat :=
  { timestamp := nowRfc3339, project := project, language := language,
    file := file, branch := branch, editor := "Zed", os := osName }

/-- The configuration store collaborator: `get_api_key` and `get_base_url`
results (config.rs lines 158-178). -/
structure Config where
  apiKey : Option String
  baseUrl : String
deriving DecidableEq, Repr

/-- Outcome of one network request made by the transport collaborator; the
source classifies failures by the anyhow error message text. -/
inductive NetResult where
  | ok
  | err (msg : String)
deriving DecidableEq, Repr

/-- The mutable state of `HeartbeatManager` (heartbeat.rs lines 50-58),
plus `disk`, the logical content of the persisted offline-queue snapshot
written by `save_offline_heartbeats`.  The `VecDeque` is modelled as a
list whose head is the front of the deque. -/
structure ManagerState where
  last_heartbeat_time : Option Int
  last_file : Option String
  offline_heartbeats : List Heartbeat
  is_online : Bool
  has_valid_api_key : Bool
  disk : List Heartbeat
deriving DecidableEq, Repr

/-- Substring containment, modelling Rust `str::contains`: the pattern is
a prefix of some suffix of the string. -/
def strContains (s sub : String) : Bool :=
  (List.range (s.toList.length + 1)).any
    (fun i => List.isPrefixOf sub.toList (s.toList.drop i))

/-- Rust `str::to_lowercase` (restricted to the ASCII mapping of
`Char.toLower`, which covers the literals the source compares against). -/
def strToLower (s : String) : String :=
  String.mk (s.toList.map Char.toLower)

/-- Authorization-failure classification as written in `process_heartbeat`
(heartbeat.rs lines 249-250). -/
def is_auth_error_delivery (msg : String) : Bool :=
  strContains msg "401" || strContains (strToLower msg) "invalid api key"

/-- Authorization-failure classification as written in
`sync_offline_heartbeats` (heartbeat.rs lines 308-309). -/
def is_auth_error_sync (msg : String) : Bool :=
  strContains msg "401" || strContains (strToLower msg) "invalid api key"

/-- Authorization-failure classification as written in
`fetch_daily_summary` (heartbeat.rs lines 345-346). -/
def is_auth_error_summary (msg : String) : Bool :=
  strContains msg "401" || strContains (strToLower msg) "invalid api key"

/-- Mirrors `save_offline_heartbeats` (heartbeat.rs lines 148-158): writes
the serialized queue to disk.  `diskOk` is the file-system collaborator
outcome; the returned `Bool` is `true` exactly when the function returned
`Ok(())`. -/
def save_offline_heartbeats (diskOk : Bool) (s : ManagerState) :
    ManagerState × Bool :=
  if diskOk then ({ s with disk := s.offline_heartbeats }, true)
  else (s, false)

/-- The written continuation of `queue_offline_heartbeat` (heartbeat.rs
lines 260-266): `push_back`, then a best-effort save whose result is
discarded (`let _ = ...`), then `Ok(())` unconditionally, so the returned
`Bool` is always `true`.  CAUTION: in the source this completion is
unreachable — the guard taken at line 261 is still held when
`save_offline_heartbeats` re-locks the same mutex at line 149, so the
call hangs right after the `push_back`.  The deadlock-faithful semantics
is `queue_offline_heartbeat_run`; this idealised form is kept for the
callers whose asserted effects happen before the hang. -/
def queue_offline_heartbeat (diskOk : Bool) (s : ManagerState)
    (hb : Heartbeat) : ManagerState × Bool :=
  let s1 := { s with offline_heartbeats := s.offline_heartbeats ++ [hb] }
  ((save_offline_heartbeats diskOk s1).1, true)

/-- Result of `process_heartbeat`: the new manager state, whether a network
request was attempted, and whether the function returned `Ok(())`. -/
structure ProcOutcome where
  state : ManagerState
  networkAttempted : Bool
  returnedOk : Bool
deriving DecidableEq, Repr

/-- The written continuation of `process_heartbeat` (heartbeat.rs lines
221-258).  `cfg` is the configuration read at the top, `net` the outcome
`send_heartbeat_request` would produce if called, `diskOk` the
file-system outcome.  CAUTION: in the source every enqueue branch hangs
inside `queue_offline_heartbeat` and never reaches its own return; only
the delivery-success path completes.  The deadlock-faithful semantics is
`process_heartbeat_run`; flag updates placed before the enqueue (lines
248-253) do occur in the source and are shared by both forms. -/
def process_heartbeat (cfg : Config) (net : NetResult) (diskOk : Bool)
    (s : ManagerState) (hb : Heartbeat) : ProcOutcome :=
  if cfg.apiKey.isNone || cfg.baseUrl.isEmpty then
    let s1 := (queue_offline_heartbeat diskOk s hb).1
    ⟨{ s1 with has_valid_api_key := false }, false, true⟩
  else if !s.is_online then
    ⟨(queue_offline_heartbeat diskOk s hb).1, false, true⟩
  else
    match net with
    | NetResult.ok =>
        ⟨{ s with is_online := true, has_valid_api_key := true }, true, true⟩
    | NetResult.err msg =>
        let s1 := { s with is_online := false }
        let s2 := if is_auth_error_delivery msg then
            { s1 with has_valid_api_key := false } else s1
        ⟨(queue_offline_heartbeat diskOk s2 hb).1, true, true⟩

/-- The `file_changed` match of `handle_editor_activity` (heartbeat.rs
lines 197-201). -/
def file_changed_check (last_file file_path : Option String) : Bool :=
  match last_file, file_path with
  | some old, some new => old != new
  | none, some _ => true
  | _, _ => false

/-- The `time_threshold_passed` match of `handle_editor_activity`
(heartbeat.rs lines 203-206): `HEARTBEAT_INTERVAL_SECONDS = 120`. -/
def time_threshold_check (last_heartbeat_time : Option Int) (now : Int) :
    Bool :=
  match last_heartbeat_time with
  | some t => decide (now - t ≥ 120)
  | none => true

/-- The written continuation of `handle_editor_activity` (heartbeat.rs
lines 182-219).  `now` is the current time in seconds, `nowStr` and
`osName` feed `Heartbeat::new`.  Returns the new state and whether a
heartbeat was constructed and processed.  CAUTION: in the source the
state updates of lines 214-215 run only when `process_heartbeat` returns,
which on enqueue paths never happens; the deadlock-faithful semantics is
`handle_editor_activity_run`.  The gate (lines 197-208) and the untouched
else branch are exercised before any hang and are faithful. -/
def handle_editor_activity (cfg : Config) (net : NetResult) (diskOk : Bool)
    (nowStr osName : String) (now : Int) (s : ManagerState)
    (file_path language_id : Option String) (force_send : Bool) :
    ManagerState × Bool :=
  if force_send || file_changed_check s.last_file file_path
      || time_threshold_check s.last_heartbeat_time now then
    let hb := Heartbeat.new nowStr osName none language_id file_path none
    let s1 := (process_heartbeat cfg net diskOk s hb).state
    ({ s1 with last_heartbeat_time := some now, last_file := file_path }, true)
  else
    (s, false)

/-- Mirrors `fetch_daily_summary` (heartbeat.rs lines 319-355); the summary
payload itself is only logged, so the model keeps the state update. -/
def fetch_daily_summary (cfg : Config) (net : NetResult)
    (s : ManagerState) : ManagerState :=
  if cfg.apiKey.isNone || cfg.baseUrl.isEmpty then
    { s with has_valid_api_key := false }
  else
    match net with
    | NetResult.ok => { s with is_online := true, has_valid_api_key := true }
    | NetResult.err msg =>
        if is_auth_error_summary msg then
          { s with has_valid_api_key := false }
        else
          { s with is_online := false }

/-- Mirrors `struct LastHeartbeatInfo` (main.rs lines 23-28). -/
structure LastHeartbeatInfo where
  uri : String
  timestamp : Int
  is_write : Bool
deriving DecidableEq, Repr

/-- Mirrors the debounce decision of `ZiitLanguageServer::handle_activity`
(main.rs lines 55-80): given the guarded `last_heartbeat_info` state and an
event, either suppress (return the unchanged state and `false`) or record
the event and proceed (`true`).  `HEARTBEAT_DEBOUNCE_SECONDS = 120`. -/
def handle_activity (st : Option LastHeartbeatInfo) (uri_str : String)
    (is_write : Bool) (now : Int) : Option LastHeartbeatInfo × Bool :=
  if !is_write then
    match st with
    | some last_info =>
        if last_info.uri == uri_str && !last_info.is_write
            && decide (now - last_info.timestamp < 120) then
          (st, false)
        else
          (some ⟨uri_str, now, is_write⟩, true)
    | none => (some ⟨uri_str, now, is_write⟩, true)
  else
    (some ⟨uri_str, now, is_write⟩, true)

/-- One raw editor event as seen by `handle_activity`. -/
structure AEvent where
  uri : String
  is_write : Bool
  time : Int
deriving DecidableEq, Repr

/-- Runs `handle_activity` over a sequence of events, counting how many
events were accepted (not suppressed). -/
def run_handle_activity : Option LastHeartbeatInfo → List AEvent →
    Option LastHeartbeatInfo × Nat
  | st, [] => (st, 0)
  | st, e :: rest =>
      let step := handle_activity st e.uri e.is_write e.time
      let restRun := run_handle_activity step.1 rest
      (restRun.1, (if step.2 then 1 else 0) + restRun.2)

/-- JSON values, the target of the serde serialization of the queue. -/
inductive JsonValue where
  | null
  | str (s : String)
  | arr (xs : List JsonValue)
  | obj (fields : List (String × JsonValue))

/-- serde serialization of an `Option<String>` field: `None` becomes
JSON `null`. -/
def optStringToJson : Option String → JsonValue
  | none => JsonValue.null
  | some s => JsonValue.str s

/-- serde serialization of one `Heartbeat` (derive(Serialize) on the
struct of heartbeat.rs lines 20-29): an object with the seven fields in
declaration order. -/
def serializeHeartbeat (hb : Heartbeat) : JsonValue :=
  JsonValue.obj
    [("timestamp", JsonValue.str hb.timestamp),
     ("project", optStringToJson hb.project),
     ("language", optStringToJson hb.language),
     ("file", optStringToJson hb.file),
     ("branch", optStringToJson hb.branch),
     ("editor", JsonValue.str hb.editor),
     ("os", JsonValue.str hb.os)]

/-- Looks up a field of a JSON object by name. -/
def getJsonField (fields : List (String × JsonValue)) (name : String) :
    Option JsonValue :=
  (fields.find? (fun p => p.1 == name)).map (fun p => p.2)

/-- Deserializes a required string field. -/
def jsonToString? : JsonValue → Option String
  | JsonValue.str s => some s
  | _ => none

/-- Deserializes an `Option<String>` field: missing or `null` is `None`. -/
def jsonToOptString? : Option JsonValue → Option (Option String)
  | none => some none
  | some JsonValue.null => some none
  | some (JsonValue.str s) => some (some s)
  | some _ => none

/-- serde deserialization of one `Heartbeat` (derive(Deserialize)). -/
def deserializeHeartbeat (j : JsonValue) : Option Heartbeat :=
  match j with
  | JsonValue.obj fields => do
      let ts ← getJsonField fields "timestamp" >>= jsonToString?
      let project ← jsonToOptString? (getJsonField fields "project")
      let language ← jsonToOptString? (getJsonField fields "language")
      let file ← jsonToOptString? (getJsonField fields "file")
      let branch ← jsonToOptString? (getJsonField fields "branch")
      let editor ← getJsonField fields "editor" >>= jsonToString?
      let osName ← getJsonField fields "os" >>= jsonToString?
      pure ⟨ts, project, language, file, branch, editor, osName⟩
  | _ => none

/-- serde serialization of the whole queue (`VecDeque<Heartbeat>`
serializes as a JSON array, front first), as written by
`save_offline_heartbeats`. -/
def serializeQueue (q : List Heartbeat) : JsonValue :=
  JsonValue.arr (q.map serializeHeartbeat)

/-- Element-wise deserialization of a JSON array body: fails if any
element fails, keeping order. -/
def deserializeHeartbeatList : List JsonValue → Option (List Heartbeat)
  | [] => some []
  | j :: rest => do
      let hb ← deserializeHeartbeat j
      let hbs ← deserializeHeartbeatList rest
      pure (hb :: hbs)

/-- serde deserialization of the whole queue, as read by
`load_offline_heartbeats` (heartbeat.rs line 126). -/
def deserializeQueue (j : JsonValue) : Option (List Heartbeat) :=
  match j with
  | JsonValue.arr xs => deserializeHeartbeatList xs
  | _ => none

/-- The field names of a JSON object, in order. -/
def jsonObjKeys : JsonValue → List String
  | JsonValue.obj fields => fields.map (fun p => p.1)
  | _ => []

/-- Outcome of one manager operation under the deadlock-faithful
semantics of the tokio mutexes: either the call returns (`ok`, with the
resulting shared state and its return value), or it hangs forever on a
`lock().await` that can never resolve (`hung`, with the shared state
visible at the hang point; the guards it holds are never released). -/
inductive RunResult (α : Type) where
  | ok (s : ManagerState) (val : α)
  | hung (s : ManagerState)
deriving DecidableEq, Repr

/-- Deadlock-faithful `save_offline_heartbeats` (heartbeat.rs lines
148-158): line 149 locks `offline_heartbeats`, so the call resolves only
when the caller does not already hold that guard; the returned value is
`true` when the function returned `Ok(())`. -/
def save_offline_heartbeats_run (queueLockHeld diskOk : Bool)
    (s : ManagerState) : RunResult Bool :=
  if queueLockHeld then RunResult.hung s
  else if diskOk then
    RunResult.ok { s with disk := s.offline_heartbeats } true
  else
    RunResult.ok s false

/-- Deadlock-faithful `queue_offline_heartbeat` (heartbeat.rs lines
260-266): the guard taken at line 261 is still held when
`save_offline_heartbeats` is awaited at line 264, so after the
`push_back` of line 262 the call hangs; line 265 (`Ok(())`) is
unreachable. -/
def queue_offline_heartbeat_run (diskOk : Bool) (s : ManagerState)
    (hb : Heartbeat) : RunResult Bool :=
  let s1 := { s with offline_heartbeats := s.offline_heartbeats ++ [hb] }
  match save_offline_heartbeats_run true diskOk s1 with
  | RunResult.hung s2 => RunResult.hung s2
  | RunResult.ok s2 _ => RunResult.ok s2 true

/-- Deadlock-faithful `process_heartbeat` (heartbeat.rs lines 221-258):
each enqueue branch awaits `queue_offline_heartbeat`, which never
returns, so the code after it (lines 228-229, line 237, lines 255-257)
is unreachable; only the delivery-success path completes.  The flag
updates written before the enqueue (line 248, lines 249-253) do occur. -/
def process_heartbeat_run (cfg : Config) (net : NetResult) (diskOk : Bool)
    (s : ManagerState) (hb : Heartbeat) : RunResult Bool :=
  if cfg.apiKey.isNone || cfg.baseUrl.isEmpty then
    match queue_offline_heartbeat_run diskOk s hb with
    | RunResult.hung s1 => RunResult.hung s1
    | RunResult.ok s1 _ =>
        RunResult.ok { s1 with has_valid_api_key := false } true
  else if !s.is_online then
    match queue_offline_heartbeat_run diskOk s hb with
    | RunResult.hung s1 => RunResult.hung s1
    | RunResult.ok s1 _ => RunResult.ok s1 true
  else
    match net with
    | NetResult.ok =>
        RunResult.ok { s with is_online := true, has_valid_api_key := true }
          true
    | NetResult.err msg =>
        let s1 := { s with is_online := false }
        let s2 := if is_auth_error_delivery msg then
            { s1 with has_valid_api_key := false } else s1
        match queue_offline_heartbeat_run diskOk s2 hb with
        | RunResult.hung s3 => RunResult.hung s3
        | RunResult.ok s3 _ => RunResult.ok s3 true

/-- Deadlock-faithful `sync_offline_heartbeats` (heartbeat.rs lines
268-317): the queue guard taken at line 270 is held for the whole
function.  The early no-op and unconfigured returns complete, releasing
the guard.  After the drain (line 286), the success branch sets both
flags (lines 295-296) and then hangs inside `save_offline_heartbeats`
(line 297); the failure branch hangs on the re-lock at line 302 before
any other effect, so the push-front restore (lines 303-305), both
persists, the summary refresh (line 298) and the final `Ok(())` are
unreachable. -/
def sync_offline_heartbeats_run (cfg : Config) (batchNet : NetResult)
    (diskOk : Bool) (s : ManagerState) : RunResult Bool :=
  if !s.is_online || s.offline_heartbeats.isEmpty then
    RunResult.ok s true
  else if cfg.apiKey.isNone || cfg.baseUrl.isEmpty then
    RunResult.ok { s with has_valid_api_key := false } true
  else
    let batch := s.offline_heartbeats
    let s0 := { s with offline_heartbeats := [] }
    if batch.isEmpty then
      RunResult.ok s0 true
    else
      match batchNet with
      | NetResult.ok =>
          let s1 := { s0 with is_online := true, has_valid_api_key := true }
          match save_offline_heartbeats_run true diskOk s1 with
          | RunResult.hung s2 => RunResult.hung s2
          | RunResult.ok s2 _ => RunResult.ok s2 true
      | NetResult.err _ => RunResult.hung s0

/-- Deadlock-faithful `handle_editor_activity` (heartbeat.rs lines
182-219): the updates of lines 214-215 run only when `process_heartbeat`
returns, so on every enqueue path they never happen and the activity
guards taken at lines 191-192 are never released. -/
def handle_editor_activity_run (cfg : Config) (net : NetResult)
    (diskOk : Bool) (nowStr osName : String) (now : Int) (s : ManagerState)
    (file_path language_id : Option String) (force_send : Bool) :
    RunResult Bool :=
  if force_send || file_changed_check s.last_file file_path
      || time_threshold_check s.last_heartbeat_time now then
    let hb := Heartbeat.new nowStr osName none language_id file_path none
    match process_heartbeat_run cfg net diskOk s hb with
    | RunResult.hung s1 => RunResult.hung s1
    | RunResult.ok s1 _ =>
        RunResult.ok
          { s1 with last_heartbeat_time := some now, last_file := file_path }
          true
  else
    RunResult.ok s false

/-- Concrete heartbeat fixture used by witnesses and counterexamples. -/
def hbA : Heartbeat :=
  ⟨"2025-01-01T00:00:00+00:00", none, some "rust", some "/a.rs", none, "Zed", "linux"⟩

/-- A second concrete heartbeat fixture. -/
def hbB : Heartbeat :=
  ⟨"2025-01-01T00:01:00+00:00", none, none, some "/b.rs", none, "Zed", "linux"⟩

/-- A third concrete heartbeat fixture. -/
def hbC : Heartbeat :=
  ⟨"2025-01-01T00:02:00+00:00", none, some "rust", some "/c.rs", none, "Zed", "linux"⟩

/-- A configured collaborator state: API key set, non-empty base URL. -/
def cfgOk : Config := ⟨some "k", "https://ziit.app"⟩

/-- A manager state with empty queue, optimistic flags. -/
def stEmpty : ManagerState := ⟨none, none, [], true, true, []⟩

/-- A manager state that recently reported file `/a.rs`. -/
def stRecent : ManagerState := ⟨some 0, some "/a.rs", [], true, true, []⟩

/-- A manager state with one queued heartbeat. -/
def stQ1 : ManagerState := ⟨none, none, [hbA], true, true, [hbA]⟩

/-- A manager state with three queued heartbeats. -/
def stQ3 : ManagerState := ⟨none, none, [hbA, hbB, hbC], true, true, [hbA, hbB, hbC]⟩

/-- A manager state currently marked offline. -/
def stOff : ManagerState := ⟨none, none, [hbA], false, true, [hbA]⟩

/-- Three non-write events on one resource within one debounce window. -/
def evs3 : List AEvent :=
  [⟨"/a.rs", false, 0⟩, ⟨"/a.rs", false, 5⟩, ⟨"/a.rs", false, 10⟩]

lemma config_unset_cond (cfg : Config)
    (h : cfg.apiKey = none ∨ cfg.baseUrl = "") :
    (cfg.apiKey.isNone || cfg.baseUrl.isEmpty) = true := by
  rcases h with h | h
  · rw [h]; rfl
  · rw [h]
    have he : ("" : String).isEmpty = true := rfl
    rw [he, Bool.or_true]

lemma fetch_daily_summary_preserves (cfg : Config) (net : NetResult)
    (s : ManagerState) :
    (fetch_daily_summary cfg net s).offline_heartbeats = s.offline_heartbeats
    ∧ (fetch_daily_summary cfg net s).disk = s.disk := by
  unfold fetch_daily_summary
  split
  · exact ⟨rfl, rfl⟩
  · split
    · exact ⟨rfl, rfl⟩
    · split <;> exact ⟨rfl, rfl⟩

lemma handle_activity_result (st : Option LastHeartbeatInfo) (uri : String)
    (w : Bool) (now : Int) :
    handle_activity st uri w now = (st, false)
    ∨ handle_activity st uri w now = (some ⟨uri, now, w⟩, true) := by
  unfold handle_activity
  cases w with
  | true => right; rfl
  | false =>
      cases st with
      | none => right; rfl
      | some last => by_cases h : (last.uri == uri && !last.is_write
            && decide (now - last.timestamp < 120)) = true <;> simp [h]

lemma handle_activity_suppressed_iff (st : Option LastHeartbeatInfo)
    (uri : String) (w : Bool) (now : Int) :
    handle_activity st uri w now = (st, false) ↔
      (w = false ∧ ∃ last, st = some last ∧ last.uri = uri ∧
        last.is_write = false ∧ now - last.timestamp < 120) := by
  unfold handle_activity
  cases w with
  | true => simp
  | false =>
      cases st with
      | none => simp
      | some last =>
          cases hu : (last.uri == uri) <;> cases hw : last.is_write <;>
            cases hlt : decide (now - last.timestamp < 120) <;>
            simp_all [handle_activity]

lemma run_handle_activity_all_suppressed (r : String) (lo : Int)
    (events : List AEvent)
    (hev : ∀ e ∈ events, e.uri = r ∧ e.is_write = false ∧ lo ≤ e.time
      ∧ e.time < lo + 120) :
    ∀ τ : Int, lo ≤ τ →
      run_handle_activity (some ⟨r, τ, false⟩) events
        = (some ⟨r, τ, false⟩, 0) := by
  induction events with
  | nil => intro τ _; rfl
  | cons e rest ih =>
      intro τ hτ
      obtain ⟨h1, h2, h3, h4⟩ := hev e (by simp)
      have hsup : handle_activity (some ⟨r, τ, false⟩) e.uri e.is_write e.time
          = (some ⟨r, τ, false⟩, false) := by
        rw [handle_activity_suppressed_iff]
        exact ⟨h2, ⟨r, τ, false⟩, rfl, h1.symm, rfl,
          show e.time - τ < 120 by omega⟩
      have hrest := ih (fun x hx => hev x (List.mem_cons_of_mem _ hx)) τ hτ
      simp [run_handle_activity, hsup, hrest]

lemma run_handle_activity_window_le_one (r : String) (lo : Int)
    (events : List AEvent) (st₀ : Option LastHeartbeatInfo)
    (hev : ∀ e ∈ events, e.uri = r ∧ e.is_write = false ∧ lo ≤ e.time
      ∧ e.time < lo + 120) :
    (run_handle_activity st₀ events).2 ≤ 1 := by
  induction events generalizing st₀ with
  | nil => simp [run_handle_activity]
  | cons e rest ih =>
      obtain ⟨h1, h2, h3, h4⟩ := hev e (by simp)
      rcases handle_activity_result st₀ e.uri e.is_write e.time with hc | hc
      · have hrec := ih st₀ (fun x hx => hev x (List.mem_cons_of_mem _ hx))
        simp only [run_handle_activity, hc]
        simpa using hrec
      · have hst : handle_activity st₀ e.uri e.is_write e.time
            = (some ⟨r, e.time, false⟩, true) := by
          rw [hc, h1, h2]
        have hrest := run_handle_activity_all_suppressed r lo rest
          (fun x hx => hev x (List.mem_cons_of_mem _ hx)) e.time h3
        simp [run_handle_activity, hst, hrest]

lemma file_changed_check_iff (lf fp : Option String) :
    file_changed_check lf fp = true ↔ ∃ p, fp = some p ∧ lf ≠ some p := by
  cases lf <;> cases fp <;> simp [file_changed_check, bne_iff_ne]

lemma time_threshold_check_iff (lt : Option Int) (now : Int) :
    time_threshold_check lt now = true ↔
      ∀ t, lt = some t → now - t ≥ 120 := by
  cases lt <;> simp [time_threshold_check]

lemma handle_editor_activity_produced (cfg : Config) (net : NetResult)
    (diskOk : Bool) (nowStr osName : String) (now : Int) (s : ManagerState)
    (file_path language_id : Option String) (force_send : Bool) :
    (handle_editor_activity cfg net diskOk nowStr osName now s file_path
        language_id force_send).2
      = (force_send || file_changed_check s.last_file file_path
          || time_threshold_check s.last_heartbeat_time now) := by
  unfold handle_editor_activity
  cases hc : (force_send || file_changed_check s.last_file file_path
      || time_threshold_check s.last_heartbeat_time now) <;> simp [hc]

lemma handle_editor_activity_state (cfg : Config) (net : NetResult)
    (diskOk : Bool) (nowStr osName : String) (now : Int) (s : ManagerState)
    (file_path language_id : Option String) (force_send : Bool) :
    ((handle_editor_activity cfg net diskOk nowStr osName now s file_path
        language_id force_send).2 = true →
      (handle_editor_activity cfg net diskOk nowStr osName now s file_path
        language_id force_send).1.last_file = file_path)
    ∧ ((handle_editor_activity cfg net diskOk nowStr osName now s file_path
        language_id force_send).2 = false →
      (handle_editor_activity cfg net diskOk nowStr osName now s file_path
        language_id force_send).1 = s) := by
  unfold handle_editor_activity
  cases hc : (force_send || file_changed_check s.last_file file_path
      || time_threshold_check s.last_heartbeat_time now) <;> simp [hc]

lemma deserialize_serialize_heartbeat (hb : Heartbeat) :
    deserializeHeartbeat (serializeHeartbeat hb) = some hb := by
  rcases hb with ⟨ts, p, l, f, b, e, o⟩
  cases p <;> cases l <;> cases f <;> cases b <;> rfl

lemma roundtrip_queue_list (q : List Heartbeat) :
    deserializeHeartbeatList (q.map serializeHeartbeat) = some q := by
  induction q with
  | nil => rfl
  | cons h t ih =>
      simp [deserializeHeartbeatList, deserialize_serialize_heartbeat, ih]

/-- C2: the debouncer of `handle_activity` suppresses an event, leaving
the state unchanged, exactly when a previous signal exists for the same
resource, neither the previous signal nor the current event is a write,
and the elapsed time is strictly under 120 seconds; consequently writes
and first-ever events are never suppressed, and any sequence of non-write
events on one resource inside one 120-second window yields at most one
accepted decision. -/
theorem debounce_suppression_spec
    (st st₀ : Option LastHeartbeatInfo) (uri r : String) (w : Bool)
    (now lo : Int) (events : List AEvent)
    (hev : ∀ e ∈ events, e.uri = r ∧ e.is_write = false ∧ lo ≤ e.time
      ∧ e.time < lo + 120) :
    (handle_activity st uri w now = (st, false) ↔
      (w = false ∧ ∃ last, st = some last ∧ last.uri = uri ∧
        last.is_write = false ∧ now - last.timestamp < 120))
    ∧ (run_handle_activity st₀ events).2 ≤ 1 :=
  ⟨handle_activity_suppressed_iff st uri w now,
   run_handle_activity_window_le_one r lo events st₀ hev⟩

/-- Witness for C2: three non-write events on `/a.rs` at t = 0, 5, 10
inside one window, starting from the empty debounce state. -/
theorem debounce_suppression_spec_witness :
    (∀ e ∈ evs3, e.uri = "/a.rs" ∧ e.is_write = false ∧ (0 : Int) ≤ e.time
      ∧ e.time < 0 + 120)
    ∧ ((handle_activity none "/a.rs" false 0 = (none, false) ↔
        (false = false ∧ ∃ last, (none : Option LastHeartbeatInfo) = some last
          ∧ last.uri = "/a.rs" ∧ last.is_write = false
          ∧ (0 : Int) - last.timestamp < 120))
      ∧ (run_handle_activity none evs3).2 ≤ 1) :=
  ⟨by decide,
   debounce_suppression_spec none none "/a.rs" "/a.rs" false 0 0 evs3
     (by decide)⟩

/-- C3 counterexample: with last reported file `/a.rs`, a recent last
heartbeat (10 seconds ago) and no force flag, a call carrying no file path
produces no heartbeat, although the current resource (none) differs from
the last reported resource, which the claim says must produce one. -/
theorem justify_condition_cex :
    (handle_editor_activity cfgOk NetResult.ok true "t" "linux" 10 stRecent
        none none false).2 = false
    ∧ (none : Option String) ≠ stRecent.last_file
    ∧ stRecent.last_file = some "/a.rs"
    ∧ (10 : Int) - 0 < 120 := by decide

/-- C3 amended: a heartbeat is constructed and processed iff `force_send`
is set, or the call carries some file path that differs from the last
reported one (a call carrying no file path never counts as a resource
change), or the time since the last reported heartbeat is at least 120
seconds (no prior heartbeat counts as passed); otherwise no heartbeat is
constructed and the state is unchanged. -/
theorem justify_condition_amended (cfg : Config) (net : NetResult)
    (diskOk : Bool) (nowStr osName : String) (now : Int) (s : ManagerState)
    (file_path language_id : Option String) (force_send : Bool) :
    ((handle_editor_activity cfg net diskOk nowStr osName now s file_path
        language_id force_send).2 = true ↔
      (force_send = true
        ∨ (∃ p, file_path = some p ∧ s.last_file ≠ some p)
        ∨ (∀ t, s.last_heartbeat_time = some t → now - t ≥ 120)))
    ∧ ((handle_editor_activity cfg net diskOk nowStr osName now s file_path
        language_id force_send).2 = false →
      (handle_editor_activity cfg net diskOk nowStr osName now s file_path
        language_id force_send).1 = s) := by
  constructor
  · rw [handle_editor_activity_produced]
    simp [file_changed_check_iff, time_threshold_check_iff, or_assoc]
  · exact (handle_editor_activity_state cfg net diskOk nowStr osName now s
      file_path language_id force_send).2

/-- C4: for a heartbeat processed while online and configured, delivery
success sets both `is_online` and `has_valid_api_key` to true and does not
enqueue; an authorization failure marks the credentials invalid and
enqueues the heartbeat at the tail; any other failure marks `is_online`
false and enqueues the heartbeat at the tail. -/
theorem process_heartbeat_online_outcomes
    (cfg : Config) (msg : String) (diskOk : Bool) (s : ManagerState)
    (hb : Heartbeat)
    (hkey : cfg.apiKey.isNone = false) (hurl : cfg.baseUrl.isEmpty = false)
    (honline : s.is_online = true) :
    ((process_heartbeat cfg NetResult.ok diskOk s hb).state
        = { s with is_online := true, has_valid_api_key := true }
      ∧ (process_heartbeat cfg NetResult.ok diskOk s hb).state.offline_heartbeats
        = s.offline_heartbeats)
    ∧ (is_auth_error_delivery msg = true →
        (process_heartbeat cfg (NetResult.err msg) diskOk s
            hb).state.has_valid_api_key = false
        ∧ (process_heartbeat cfg (NetResult.err msg) diskOk s
            hb).state.offline_heartbeats = s.offline_heartbeats ++ [hb])
    ∧ (is_auth_error_delivery msg = false →
        (process_heartbeat cfg (NetResult.err msg) diskOk s
            hb).state.is_online = false
        ∧ (process_heartbeat cfg (NetResult.err msg) diskOk s
            hb).state.offline_heartbeats = s.offline_heartbeats ++ [hb]) := by
  refine ⟨?_, fun hauth => ?_, fun hauth => ?_⟩
  · cases diskOk <;>
      simp [process_heartbeat, hkey, hurl, honline, queue_offline_heartbeat,
        save_offline_heartbeats]
  · cases diskOk <;>
      simp [process_heartbeat, hkey, hurl, honline, queue_offline_heartbeat,
        save_offline_heartbeats, hauth]
  · cases diskOk <;>
      simp [process_heartbeat, hkey, hurl, honline, queue_offline_heartbeat,
        save_offline_heartbeats, hauth]

/-- Witness for C4: configured state, online, error message `HTTP 500`. -/
theorem process_heartbeat_online_outcomes_witness :
    (cfgOk.apiKey.isNone = false ∧ cfgOk.baseUrl.isEmpty = false
      ∧ stQ1.is_online = true)
    ∧ (((process_heartbeat cfgOk NetResult.ok true stQ1 hbB).state
        = { stQ1 with is_online := true, has_valid_api_key := true }
      ∧ (process_heartbeat cfgOk NetResult.ok true stQ1
          hbB).state.offline_heartbeats = stQ1.offline_heartbeats)
    ∧ (is_auth_error_delivery "HTTP 500" = true →
        (process_heartbeat cfgOk (NetResult.err "HTTP 500") true stQ1
            hbB).state.has_valid_api_key = false
        ∧ (process_heartbeat cfgOk (NetResult.err "HTTP 500") true stQ1
            hbB).state.offline_heartbeats = stQ1.offline_heartbeats ++ [hbB])
    ∧ (is_auth_error_delivery "HTTP 500" = false →
        (process_heartbeat cfgOk (NetResult.err "HTTP 500") true stQ1
            hbB).state.is_online = false
        ∧ (process_heartbeat cfgOk (NetResult.err "HTTP 500") true stQ1
            hbB).state.offline_heartbeats = stQ1.offline_heartbeats ++ [hbB])) :=
  ⟨by decide,
   process_heartbeat_online_outcomes cfgOk "HTTP 500" true stQ1 hbB
     (by decide) (by decide) (by decide)⟩

/-- C8: serializing the offline queue and deserializing it is the identity
on any ordered sequence of heartbeats, and the serialized object of every
heartbeat carries exactly the field names timestamp, project, language,
file, branch, editor, os in order. -/
theorem queue_roundtrip (q : List Heartbeat) (hb : Heartbeat) :
    deserializeQueue (serializeQueue q) = some q
    ∧ jsonObjKeys (serializeHeartbeat hb)
      = ["timestamp", "project", "language", "file", "branch", "editor",
         "os"] := by
  constructor
  · simp [deserializeQueue, serializeQueue, roundtrip_queue_list]
  · rfl

/-- C9 counterexample: for the same authorization failure (message
`401`) from the same online, configured state, the summary refresh leaves
`is_online` true while the single-heartbeat delivery failure sets it
false, so the two state updates are not the same. -/
theorem summary_failure_divergence_cex :
    (fetch_daily_summary cfgOk (NetResult.err "401") stEmpty).is_online
      = true
    ∧ (process_heartbeat cfgOk (NetResult.err "401") true stEmpty
        hbA).state.is_online = false
    ∧ is_auth_error_summary "401" = true := by decide

/-- C9 amended: both operations classify authorization failures with the
identical predicate and the refresh never touches the offline queue or
its on-disk snapshot; on non-authorization failures both produce the same
update (connectivity offline, credentials unchanged); on authorization
failures both mark credentials invalid, but delivery additionally marks
connectivity offline while the refresh leaves connectivity unchanged. -/
theorem summary_failure_classification_amended
    (cfg : Config) (net : NetResult) (msg : String) (s : ManagerState)
    (hb : Heartbeat) (diskOk : Bool)
    (hkey : cfg.apiKey.isNone = false)
    (hurl : cfg.baseUrl.isEmpty = false)
    (honline : s.is_online = true) :
    is_auth_error_summary msg = is_auth_error_delivery msg
    ∧ (fetch_daily_summary cfg net s).offline_heartbeats
      = s.offline_heartbeats
    ∧ (fetch_daily_summary cfg net s).disk = s.disk
    ∧ (is_auth_error_summary msg = false →
        fetch_daily_summary cfg (NetResult.err msg) s
          = { s with is_online := false }
        ∧ (process_heartbeat cfg (NetResult.err msg) diskOk s
            hb).state.is_online = false
        ∧ (process_heartbeat cfg (NetResult.err msg) diskOk s
            hb).state.has_valid_api_key = s.has_valid_api_key)
    ∧ (is_auth_error_summary msg = true →
        fetch_daily_summary cfg (NetResult.err msg) s
          = { s with has_valid_api_key := false }
        ∧ (fetch_daily_summary cfg (NetResult.err msg) s).is_online
          = s.is_online
        ∧ (process_heartbeat cfg (NetResult.err msg) diskOk s
            hb).state.has_valid_api_key = false
        ∧ (process_heartbeat cfg (NetResult.err msg) diskOk s
            hb).state.is_online = false) := by
  have hcls : is_auth_error_summary msg = is_auth_error_delivery msg := rfl
  refine ⟨hcls, (fetch_daily_summary_preserves cfg net s).1,
    (fetch_daily_summary_preserves cfg net s).2,
    fun hauth => ?_, fun hauth => ?_⟩
  · have hd : is_auth_error_delivery msg = false := hcls ▸ hauth
    cases diskOk <;>
      simp [fetch_daily_summary, process_heartbeat, hkey, hurl, honline,
        hauth, hd, queue_offline_heartbeat, save_offline_heartbeats]
  · have hd : is_auth_error_delivery msg = true := hcls ▸ hauth
    cases diskOk <;>
      simp [fetch_daily_summary, process_heartbeat, hkey, hurl, honline,
        hauth, hd, queue_offline_heartbeat, save_offline_heartbeats]

/-- Witness for C9: configured, online state with message `401`. -/
theorem summary_failure_classification_amended_witness :
    (cfgOk.apiKey.isNone = false ∧ cfgOk.baseUrl.isEmpty = false
      ∧ stQ1.is_online = true)
    ∧ (is_auth_error_summary "401" = is_auth_error_delivery "401"
      ∧ (fetch_daily_summary cfgOk (NetResult.err "401")
          stQ1).offline_heartbeats = stQ1.offline_heartbeats
      ∧ (fetch_daily_summary cfgOk (NetResult.err "401") stQ1).disk
        = stQ1.disk
      ∧ (is_auth_error_summary "401" = false →
          fetch_daily_summary cfgOk (NetResult.err "401") stQ1
            = { stQ1 with is_online := false }
          ∧ (process_heartbeat cfgOk (NetResult.err "401") true stQ1
              hbB).state.is_online = false
          ∧ (process_heartbeat cfgOk (NetResult.err "401") true stQ1
              hbB).state.has_valid_api_key = stQ1.has_valid_api_key)
      ∧ (is_auth_error_summary "401" = true →
          fetch_daily_summary cfgOk (NetResult.err "401") stQ1
            = { stQ1 with has_valid_api_key := false }
          ∧ (fetch_daily_summary cfgOk (NetResult.err "401") stQ1).is_online
            = stQ1.is_online
          ∧ (process_heartbeat cfgOk (NetResult.err "401") true stQ1
              hbB).state.has_valid_api_key = false
          ∧ (process_heartbeat cfgOk (NetResult.err "401") true stQ1
              hbB).state.is_online = false)) :=
  ⟨by decide,
   summary_failure_classification_amended cfgOk (NetResult.err "401") "401"
     stQ1 hbB true (by decide) (by decide) (by decide)⟩

/-- C1: code bug: the source never restores the queue after a failed
batch delivery.  Under the deadlock-faithful semantics, a configured,
online sync over a non-empty queue whose batch call fails hangs at the
re-lock of line 302 with the queue still drained: the batch is never
pushed back onto the front, nothing is persisted, the flags are not
reclassified, and the call never returns. -/
theorem sync_failure_deadlocks
    (cfg : Config) (diskOk : Bool) (s : ManagerState) (msg : String)
    (honline : s.is_online = true)
    (hne : s.offline_heartbeats.isEmpty = false)
    (hkey : cfg.apiKey.isNone = false)
    (hurl : cfg.baseUrl.isEmpty = false) :
    sync_offline_heartbeats_run cfg (NetResult.err msg) diskOk s
      = RunResult.hung { s with offline_heartbeats := [] } := by
  simp [sync_offline_heartbeats_run, honline, hne, hkey, hurl]

/-- Witness for C1: a one-element queue, configured and online, with a
failing batch call. -/
theorem sync_failure_deadlocks_witness :
    (stQ1.is_online = true ∧ stQ1.offline_heartbeats.isEmpty = false
      ∧ cfgOk.apiKey.isNone = false ∧ cfgOk.baseUrl.isEmpty = false)
    ∧ sync_offline_heartbeats_run cfgOk (NetResult.err "HTTP 500") true stQ1
      = RunResult.hung { stQ1 with offline_heartbeats := [] } :=
  ⟨by decide,
   sync_failure_deadlocks cfgOk true stQ1 "HTTP 500" (by decide) (by decide)
     (by decide) (by decide)⟩

/-- C5: code bug: with the API key (or endpoint) unset, the source pushes
the heartbeat onto the in-memory queue and attempts no network call, but
then hangs inside `queue_offline_heartbeat`, so the credential state is
never marked invalid, nothing is persisted, and `Ok(())` is never
returned: lines 228-229 are unreachable.  The hang state carries the
pushed heartbeat with the credential flag and the disk unchanged. -/
theorem process_unconfigured_deadlocks
    (cfg : Config) (net : NetResult) (diskOk : Bool) (s : ManagerState)
    (hb : Heartbeat) (h : cfg.apiKey = none ∨ cfg.baseUrl = "") :
    process_heartbeat_run cfg net diskOk s hb
      = RunResult.hung
          { s with offline_heartbeats := s.offline_heartbeats ++ [hb] }
    ∧ ({ s with offline_heartbeats := s.offline_heartbeats ++ [hb]
        }).has_valid_api_key = s.has_valid_api_key
    ∧ ({ s with offline_heartbeats := s.offline_heartbeats ++ [hb]
        }).disk = s.disk := by
  refine ⟨?_, rfl, rfl⟩
  simp [process_heartbeat_run, queue_offline_heartbeat_run,
    save_offline_heartbeats_run, config_unset_cond cfg h]

/-- Witness for C5: no stored API key, empty queue, one heartbeat. -/
theorem process_unconfigured_deadlocks_witness :
    ((⟨none, "https://ziit.app"⟩ : Config).apiKey = none
      ∨ (⟨none, "https://ziit.app"⟩ : Config).baseUrl = "")
    ∧ (process_heartbeat_run ⟨none, "https://ziit.app"⟩ NetResult.ok true
          stEmpty hbA
        = RunResult.hung
            { stEmpty with offline_heartbeats :=
                stEmpty.offline_heartbeats ++ [hbA] }
      ∧ ({ stEmpty with offline_heartbeats :=
            stEmpty.offline_heartbeats ++ [hbA]
          }).has_valid_api_key = stEmpty.has_valid_api_key
      ∧ ({ stEmpty with offline_heartbeats :=
            stEmpty.offline_heartbeats ++ [hbA]
          }).disk = stEmpty.disk) :=
  ⟨by decide,
   process_unconfigured_deadlocks ⟨none, "https://ziit.app"⟩ NetResult.ok
     true stEmpty hbA (by decide)⟩

/-- C6: code bug: the no-op half of the contract holds (offline or empty
queue: state unchanged, success returned, no queue mutation), but on the
success path the source drains the queue and sets both flags true, then
hangs persisting at line 297: the persist of the now-empty queue, the
summary refresh, and the `Ok(())` return never happen.  The hang state
shows the drained queue and both flags true with the disk unchanged. -/
theorem sync_success_deadlocks
    (cfg : Config) (batchNet : NetResult) (diskOk diskOk2 : Bool)
    (s sQ : ManagerState)
    (hnoop : s.is_online = false ∨ s.offline_heartbeats = [])
    (hne : sQ.offline_heartbeats.isEmpty = false)
    (honline : sQ.is_online = true)
    (hkey : cfg.apiKey.isNone = false)
    (hurl : cfg.baseUrl.isEmpty = false) :
    sync_offline_heartbeats_run cfg batchNet diskOk s = RunResult.ok s true
    ∧ sync_offline_heartbeats_run cfg NetResult.ok diskOk2 sQ
      = RunResult.hung { sQ with offline_heartbeats := [], is_online := true, has_valid_api_key := true } := by
  constructor
  · rcases hnoop with h | h
    · simp [sync_offline_heartbeats_run, h]
    · have hq : s.offline_heartbeats.isEmpty = true := by rw [h]; rfl
      simp [sync_offline_heartbeats_run, hq]
  · simp [sync_offline_heartbeats_run, hne, honline, hkey, hurl,
      save_offline_heartbeats_run]

/-- Witness for C6: an offline state for the no-op conjunct and a
three-heartbeat queue with a succeeding batch call for the hang. -/
theorem sync_success_deadlocks_witness :
    ((stOff.is_online = false ∨ stOff.offline_heartbeats = [])
      ∧ stQ3.offline_heartbeats.isEmpty = false ∧ stQ3.is_online = true
      ∧ cfgOk.apiKey.isNone = false ∧ cfgOk.baseUrl.isEmpty = false)
    ∧ (sync_offline_heartbeats_run cfgOk (NetResult.err "HTTP 500") true
        stOff = RunResult.ok stOff true
      ∧ sync_offline_heartbeats_run cfgOk NetResult.ok true stQ3
        = RunResult.hung { stQ3 with offline_heartbeats := [], is_online := true, has_valid_api_key := true }) :=
  ⟨by decide,
   sync_success_deadlocks cfgOk (NetResult.err "HTTP 500") true true stOff
     stQ3 (by decide) (by decide) (by decide) (by decide) (by decide)⟩

/-- C7: code bug: no queue mutation ever upholds the persist contract
because none ever completes: the append pushes the heartbeat and then
hangs re-locking the queue mutex inside the save, leaving the on-disk
snapshot stale forever and never returning success.  (Independently, the
written continuation also discards the save result with `let _ = ...`,
so even modulo the deadlock the append would report success after a
failed disk write.) -/
theorem queue_append_deadlocks (diskOk : Bool) (s : ManagerState)
    (hb : Heartbeat) :
    queue_offline_heartbeat_run diskOk s hb
      = RunResult.hung
          { s with offline_heartbeats := s.offline_heartbeats ++ [hb] }
    ∧ ({ s with offline_heartbeats := s.offline_heartbeats ++ [hb]
        }).disk = s.disk := by
  refine ⟨?_, rfl⟩
  simp [queue_offline_heartbeat_run, save_offline_heartbeats_run]

/-- C10: code bug: an idle tick (no file path, no force) with a last
reported file never counts as a resource change, so it fires only via
the 120-second threshold; the source then intends to clear the last
reported file (line 215), but on an enqueue path (here: unconfigured)
the call hangs inside the enqueue before lines 214-215 run, so the
produced heartbeat sits in the queue while the last reported file
remains unchanged and the call never returns. -/
theorem idle_tick_enqueue_deadlock
    (cfg : Config) (net : NetResult) (diskOk : Bool)
    (nowStr osName : String) (now : Int) (s : ManagerState) (f : String)
    (hlf : s.last_file = some f)
    (hthr : time_threshold_check s.last_heartbeat_time now = true)
    (hcfg : cfg.apiKey = none ∨ cfg.baseUrl = "") :
    file_changed_check s.last_file none = false
    ∧ handle_editor_activity_run cfg net diskOk nowStr osName now s none
        none false
      = RunResult.hung
          { s with offline_heartbeats := s.offline_heartbeats
              ++ [Heartbeat.new nowStr osName none none none none] }
    ∧ ({ s with offline_heartbeats := s.offline_heartbeats
          ++ [Heartbeat.new nowStr osName none none none none]
        }).last_file = some f := by
  refine ⟨?_, ?_, hlf⟩
  · rw [hlf]; rfl
  · simp [handle_editor_activity_run, hlf, file_changed_check, hthr,
      process_heartbeat_run, queue_offline_heartbeat_run,
      save_offline_heartbeats_run, config_unset_cond cfg hcfg]

/-- Witness for C10: last reported file `/a.rs`, last heartbeat 200
seconds before the tick, no API key configured. -/
theorem idle_tick_enqueue_deadlock_witness :
    (stRecent.last_file = some "/a.rs"
      ∧ time_threshold_check stRecent.last_heartbeat_time 200 = true
      ∧ ((⟨none, "https://ziit.app"⟩ : Config).apiKey = none
          ∨ (⟨none, "https://ziit.app"⟩ : Config).baseUrl = ""))
    ∧ (file_changed_check stRecent.last_file none = false
      ∧ handle_editor_activity_run ⟨none, "https://ziit.app"⟩ NetResult.ok
          true "t" "linux" 200 stRecent none none false
        = RunResult.hung
            { stRecent with offline_heartbeats :=
                stRecent.offline_heartbeats
                  ++ [Heartbeat.new "t" "linux" none none none none] }
      ∧ ({ stRecent with offline_heartbeats :=
            stRecent.offline_heartbeats
              ++ [Heartbeat.new "t" "linux" none none none none]
          }).last_file = some "/a.rs") :=
  ⟨⟨by decide, by decide, by decide⟩,
   idle_tick_enqueue_deadlock ⟨none, "https://ziit.app"⟩ NetResult.ok true
     "t" "linux" 200 stRecent "/a.rs" (by decide) (by decide) (by decide)⟩
